import Mathlib

/-!
Shallow embedding of `vault_pki.py`, a Salt runner that validates a CSR,
authenticates to a Vault instance, submits the CSR for signing and writes
the resulting certificate and full chain back to the requesting minion.

External collaborators (the x509 parser, the filesystem, the hvac Vault
client and the Salt LocalClient executor) are modelled as oracle fields of
a `World` structure; the runner's own control flow is translated
line-by-line from the source.  Exceptions become the `Err` type; observable
calls to collaborators (and error-level log writes) are recorded as a list
of `Event`s.  Info-level log writes carry no decision content and are not
modelled.
-/

namespace VaultPKI

/-- Python exceptions that can escape the code under `src/vault_pki.py`:
the two classes it defines, plus the x509 parse error that
`load_pem_x509_csr` raises and propagates, the `KeyError` raised by
indexing a response JSON that lacks a field, and the `AttributeError`
raised by invoking a method on `None`. -/
inductive Err where
  | ConfigError (msg : String)
  | SigningError (msg : String)
  | ParseError
  | KeyError (key : String)
  | AttrError
  deriving DecidableEq, Repr

/-- The `signing_params` dict built in `main` (src/vault_pki.py:187-191). -/
structure SigningParams where
  alt_names : String
  csr : String
  common_name : String
  format : String
  ttl : String
  deriving DecidableEq, Repr

/-- The `data` field of a successful Vault signing response, as consumed
by `_write_certs_to_minion` (src/vault_pki.py:151-152). -/
structure CertData where
  certificate : String
  issuing_ca : String
  deriving DecidableEq, Repr

/-- Result of `hvac`'s `auth_app_id`: success, or a `VaultError` whose
string form is `detail`. -/
inductive AuthResult where
  | ok
  | err (detail : String)
  deriving DecidableEq, Repr

/-- Result of `vault_conn._post`: a response whose JSON carries a `data`
payload, a response whose JSON lacks the `data` key, or a raised
`VaultError` with string form `detail`. -/
inductive PostResult where
  | ok (data : CertData)
  | noData
  | vaultErr (detail : String)
  deriving DecidableEq, Repr

/-- Observable calls to the external collaborators, plus error-level log
writes.  `authCall` is `conn.auth_app_id` (the session-establishment
network call), `signCall` is `vault_conn._post` (the signing submission),
`writeCall` is one `client.cmd(fqdn, fun, [path, content])` dispatch of the
Salt executor. -/
inductive Event where
  | authCall (url : Option String) (app_id : Option String) (user_id : Option String)
  | signCall (pki_path : String) (params : SigningParams)
  | writeCall (target : String) (remote_path : String) (content : String)
  | logError (msg : String)
  deriving DecidableEq, Repr

/-- Oracles for everything outside the runner's own code. -/
structure World where
  /-- `x509.load_pem_x509_csr` followed by
  `csr.subject.get_attributes_for_oid(COMMON_NAME)`: the list of Common
  Name attribute values of the CSR, or `none` when parsing fails. -/
  parse : String → Option (List String)
  /-- Filesystem content by (already expanded) path; `none` when
  `os.path.isfile` is false. -/
  files : String → Option String
  /-- `os.path.abspath(os.path.expanduser path)`. -/
  expand : String → String
  /-- Outcome of `conn.auth_app_id`. -/
  auth : AuthResult
  /-- Outcome of `vault_conn._post(pki_path, json=signing_params)`. -/
  post : String → SigningParams → PostResult
  /-- Return value of the Salt executor `client.cmd(tgt, fun, args)`;
  the runner ignores it entirely. -/
  cmd : String → String → List String → Bool

/-- `CERT_FILENAME` (src/vault_pki.py:57). -/
def CERT_FILENAME : String := "cert.pem"

/-- `FULLCHAIN_FILENAME` (src/vault_pki.py:58). -/
def FULLCHAIN_FILENAME : String := "fullchain.pem"

/-- `CERT_VALIDITY_PERIOD = '\x7b:d\x7dh'.format(30 * 24)` (src/vault_pki.py:60). -/
def CERT_VALIDITY_PERIOD : String := toString (30 * 24) ++ "h"

/-- The `vault_pki_runner` section of the master config: a string-keyed
dict, modelled as an association list (first binding wins, as dict keys
are unique). -/
def Config := List (String × String)

/-- Python `dict.get(key)`: `None` when the key is absent. -/
def cfgGet (config : Config) (key : String) : Option String :=
  match config with
  | [] => none
  | (k, v) :: rest => if k = key then some v else cfgGet rest key

/-- Python `dict.get(key, default)`. -/
def cfgGetD (config : Config) (key default : String) : String :=
  (cfgGet config key).getD default

/-- Python truthiness of an optional string (`if user_id_file:`,
`if not pki_path:`): `None` and the empty string are falsy. -/
def pyTruthy : Option String → Bool
  | none => false
  | some s => s != ""

/-- Python `str.join(sep, parts)`. -/
def str_join (sep : String) : List String → String
  | [] => ""
  | [x] => x
  | x :: xs => x ++ sep ++ str_join sep xs

/-- `pat` is a leading segment of `s` (on character lists). -/
def leadsWith : List Char → List Char → Bool
  | [], _ => true
  | _ :: _, [] => false
  | a :: as, b :: bs => a == b && leadsWith as bs

/-- Python `s.startswith(pat)`. -/
def str_startsWith (s pat : String) : Bool :=
  leadsWith pat.data s.data

/-- Python `s.endswith(pat)`. -/
def str_endsWith (s pat : String) : Bool :=
  leadsWith pat.data.reverse s.data.reverse

/-- Python `os.path.join(a, b)` for the cases reachable here (two
components): an absolute second component replaces the first, a first
component that is empty or ends with the separator gets no extra
separator. -/
def os_path_join (a b : String) : String :=
  if str_startsWith b "/" then b
  else if a = "" || str_endsWith a "/" then a ++ b
  else a ++ "/" ++ b

/-- `get_user_id` (src/vault_pki.py:85-96): expand the source path, read
and strip the file if it exists, otherwise leave `user_id = None`. -/
def get_user_id (w : World) (source : String) : Option String :=
  let source := w.expand source
  match w.files source with
  | some content => some content.trim
  | none => none

/-- The body of `_verify_csr_ok` after parsing (src/vault_pki.py:107,
114-118): `csr_ok = False`; if exactly one Common Name attribute is
present and it equals the FQDN, `csr_ok = True`. -/
def verify_names (fqdn : String) (names : List String) : Bool :=
  match names with
  | [common_name] => fqdn == common_name
  | _ => false

/-- `_verify_csr_ok` (src/vault_pki.py:99-118): parse the PEM CSR (a
parse failure propagates as an exception), extract the Common Name
attributes and check them against the FQDN. -/
def verify_csr_ok (w : World) (fqdn csr_pem_data : String) : Except Err Bool :=
  match w.parse csr_pem_data with
  | none => .error .ParseError
  | some names => .ok (verify_names fqdn names)

/-- `_get_vault_connection` (src/vault_pki.py:121-139): build the client,
resolve the user id (from `vault_user_id_file` if that key is truthy,
else from the default `~/.vault-id`), attempt `auth_app_id`; on
`VaultError` log it and return `None`. -/
def get_vault_connection (w : World) (config : Config) : Option Unit × List Event :=
  let user_id_file := cfgGet config "vault_user_id_file"
  let user_id :=
    if pyTruthy user_id_file then get_user_id w (user_id_file.getD "")
    else get_user_id w "~/.vault-id"
  let evt := Event.authCall (cfgGet config "url") (cfgGet config "app_id") user_id
  match w.auth with
  | .ok => (some (), [evt])
  | .err detail => (none, [evt, .logError ("Vault error: " ++ detail)])

/-- `_write_certs_to_minion` (src/vault_pki.py:142-164): join the two
target paths, derive the full chain, dispatch the two executor writes,
ignore their return values and return `True`. -/
def write_certs_to_minion (w : World) (fqdn dest_path : String) (cert_data : CertData) :
    Bool × List Event :=
  let cert_path := os_path_join dest_path CERT_FILENAME
  let fullchain_path := os_path_join dest_path FULLCHAIN_FILENAME
  let cert := cert_data.certificate
  let fullchain := str_join "\n" [cert, cert_data.issuing_ca]
  let _write_cert := w.cmd fqdn "file.write" [cert_path, cert]
  let _write_fullchain := w.cmd fqdn "file.write" [fullchain_path, fullchain]
  (true, [.writeCall fqdn cert_path cert, .writeCall fqdn fullchain_path fullchain])

/-- The `signing_params` dict literal of `main` (src/vault_pki.py:185-191),
including the validity period read from the (misspelled) config key
`validitiy_period` with default `CERT_VALIDITY_PERIOD`. -/
def signing_params_of (config : Config) (fqdn csr : String) : SigningParams :=
  { alt_names := fqdn
    csr := csr
    common_name := fqdn
    format := "pem"
    ttl := cfgGetD config "validitiy_period" CERT_VALIDITY_PERIOD }

/-- `main` (src/vault_pki.py:167-207), given the `vault_pki_runner`
config section and the `host`/`csr`/`path` keyword arguments.  Returns
the terminal outcome (normal return or escaped exception) together with
the trace of collaborator calls and error-level log writes, in program
order. -/
def main (w : World) (config : Config) (host csr path : String) :
    Except Err Unit × List Event :=
  match verify_csr_ok w host csr with
  | .error e => (.error e, [])
  | .ok false => (.error (.SigningError "CSR missing or invalid, check fqdn."), [])
  | .ok true =>
    let conn_ev := get_vault_connection w config
    let vault_conn := conn_ev.1
    let ev1 := conn_ev.2
    let signing_params := signing_params_of config host csr
    let pki_path := cfgGet config "pki_path"
    if !pyTruthy pki_path then
      (.error (.ConfigError "Missing required parameter \"pki_path\""), ev1)
    else
      match vault_conn with
      | none => (.error .AttrError, ev1)
      | some _ =>
        let p := pki_path.getD ""
        match w.post p signing_params with
        | .vaultErr detail =>
          (.error (.SigningError "Error signing from vault!"),
            ev1 ++ [.signCall p signing_params, .logError ("Vault error: " ++ detail)])
        | .noData =>
          (.error (.KeyError "data"), ev1 ++ [.signCall p signing_params])
        | .ok data =>
          let wr := write_certs_to_minion w host path data
          if wr.1 then
            (.ok (), ev1 ++ [.signCall p signing_params] ++ wr.2)
          else
            (.ok (), ev1 ++ [.signCall p signing_params] ++ wr.2 ++
              [.logError "Error writing cert to minion!"])

/-- An event is a Signer-capability call (session establishment or
signing submission). -/
def Event.isSignerCall : Event → Bool
  | .authCall _ _ _ => true
  | .signCall _ _ => true
  | _ => false

/-- An event is specifically the signing submission. -/
def Event.isSignerSubmit : Event → Bool
  | .signCall _ _ => true
  | _ => false

/-- An event is a NodeExecutor call. -/
def Event.isExecutorCall : Event → Bool
  | .writeCall _ _ _ => true
  | _ => false

/-- `pat` occurs somewhere inside `s` (on character lists). -/
def occursAux : List Char → List Char → Bool
  | pat, [] => leadsWith pat []
  | pat, c :: rest => leadsWith pat (c :: rest) || occursAux pat rest

/-- Python `t in s`: the string `t` occurs as a contiguous segment of
`s`. -/
def containsSub (s t : String) : Bool :=
  occursAux t.data s.data

end VaultPKI

namespace VaultPKI

/-- A concrete world used to instantiate hypotheses: a CSR that parses to
the single Common Name `web1.example.com`, an empty filesystem, successful
authentication, a signing backend returning `LEAF`/`CA`, an executor that
reports success. -/
def w0 : World :=
  { parse := fun _ => some ["web1.example.com"]
    files := fun _ => none
    expand := id
    auth := .ok
    post := fun _ _ => .ok ⟨"LEAF", "CA"⟩
    cmd := fun _ _ _ => true }

theorem os_path_join_simple (a b : String) (ha : a ≠ "") (ha2 : str_endsWith a "/" = false)
    (hb : str_startsWith b "/" = false) : os_path_join a b = a ++ "/" ++ b := by
  simp [os_path_join, ha, ha2, hb]

end VaultPKI

namespace VaultPKI

/-- Claim C1: for every claimed identity and every parseable PEM CSR
(the parse oracle yields the list `names` of Common Name attribute
values), the validator returns true iff the subject carries exactly one
Common Name attribute whose value equals the claimed identity; it
returns false for zero attributes, for more than one attribute, and for
any value mismatch. -/
theorem C1_validator_iff (w : World) (fqdn csr : String) (names : List String)
    (hparse : w.parse csr = some names) :
    (verify_csr_ok w fqdn csr = .ok true ↔ names = [fqdn]) ∧
    (verify_csr_ok w fqdn csr = .ok false ↔ names ≠ [fqdn]) := by
  simp only [verify_csr_ok, hparse]
  match names with
  | [] => simp [verify_names]
  | [a] =>
    simp only [verify_names, Except.ok.injEq, beq_iff_eq, beq_eq_false_iff_ne, ne_eq,
      List.cons.injEq, and_true]
    exact ⟨eq_comm, not_congr eq_comm⟩
  | a :: b :: t => simp [verify_names]

/-- Witness for C1 at a concrete input: a CSR with the single Common
Name `web1.example.com` validates for the identity `web1.example.com`. -/
theorem C1_validator_iff_witness :
    verify_csr_ok w0 "web1.example.com" "CSR" = .ok true :=
  (C1_validator_iff w0 "web1.example.com" "CSR" ["web1.example.com"] rfl).1.mpr rfl

end VaultPKI

namespace VaultPKI

/-- Claim C2 counterexample: with a valid CSR and a config lacking
`pki_path`, the run does abort with `ConfigError`, but the event trace
already contains the Signer authentication call (`auth_app_id` is issued
by `_get_vault_connection`, which `main` invokes before it checks
`pki_path`).  This refutes "no Signer authentication ... occurs before
the abort". -/
theorem C2_counterexample :
    (main w0 [("url", "https://vault.example.com")] "web1.example.com" "CSR" "/etc/tls").1 =
      .error (.ConfigError "Missing required parameter \"pki_path\"") ∧
    (main w0 [("url", "https://vault.example.com")] "web1.example.com" "CSR" "/etc/tls").2.any
      Event.isSignerCall = true :=
  ⟨rfl, by decide⟩

/-- Claim C2 (amended): when `pki_path` is absent (or falsy), the
workflow aborts with `ConfigError` before any signing submission and
before any NodeExecutor call — but after the Signer authentication
attempt, which `main` performs before checking `pki_path`. -/
theorem C2_missing_pki_path (w : World) (config : Config) (host csr path : String)
    (names : List String)
    (hparse : w.parse csr = some names) (hver : verify_names host names = true)
    (hpki : pyTruthy (cfgGet config "pki_path") = false) :
    (main w config host csr path).1 =
      .error (.ConfigError "Missing required parameter \"pki_path\"") ∧
    (main w config host csr path).2.any Event.isSignerSubmit = false ∧
    (main w config host csr path).2.any Event.isExecutorCall = false := by
  cases hauth : w.auth <;>
    simp [main, verify_csr_ok, hparse, hver, get_vault_connection, hauth, hpki,
      Event.isSignerSubmit, Event.isExecutorCall]

/-- Witness for C2 (amended) at a concrete input: empty config section,
valid CSR for `web1.example.com`. -/
theorem C2_missing_pki_path_witness :
    (main w0 [] "web1.example.com" "CSR" "/etc/tls").1 =
      .error (.ConfigError "Missing required parameter \"pki_path\"") ∧
    (main w0 [] "web1.example.com" "CSR" "/etc/tls").2.any Event.isSignerSubmit = false ∧
    (main w0 [] "web1.example.com" "CSR" "/etc/tls").2.any Event.isExecutorCall = false :=
  C2_missing_pki_path w0 [] "web1.example.com" "CSR" "/etc/tls" ["web1.example.com"]
    rfl rfl rfl

end VaultPKI

namespace VaultPKI

/-- Claim C3, behavior of the code at the failing input: when
authentication is rejected, `_get_vault_connection` logs the error and
returns `None` (the null session), and no signing request is ever
submitted — but `main` never checks the session for `None`.  It
proceeds to build the payload and check `pki_path`, and then crashes
with an `AttributeError` when invoking `_post` on `None` (first
conjunct); if `pki_path` is also missing, it raises `ConfigError`
instead (second conjunct).  In neither case does the coordinator abort
immediately with a classified authentication error as the spec
requires of it. -/
theorem C3_null_session_behavior :
    (main { w0 with auth := .err "permission denied" }
        [("pki_path", "v1/pki/sign/web")] "web1.example.com" "CSR" "/etc/tls") =
      (.error .AttrError,
        [.authCall none none none, .logError "Vault error: permission denied"]) ∧
    (main { w0 with auth := .err "permission denied" }
        [] "web1.example.com" "CSR" "/etc/tls").1 =
      .error (.ConfigError "Missing required parameter \"pki_path\"") :=
  ⟨rfl, rfl⟩

/-- Claim C4: whenever the validator returns false (here: the CSR
parses, but its Common Name attributes fail the check), `main` aborts
immediately with the invalid-CSR failure — realized in the code as
`raise SigningError('CSR missing or invalid, check fqdn.')`, the spec's
`Failed(InvalidCSR)` terminal state — and the trace is empty: no Signer
authentication, no signing submission, and no NodeExecutor call
occurred. -/
theorem C4_invalid_csr_aborts (w : World) (config : Config) (host csr path : String)
    (names : List String)
    (hparse : w.parse csr = some names) (hver : verify_names host names = false) :
    (main w config host csr path).1 =
      .error (.SigningError "CSR missing or invalid, check fqdn.") ∧
    (main w config host csr path).2 = [] := by
  simp [main, verify_csr_ok, hparse, hver]

/-- Witness for C4 at a concrete input: identity `web1.example.com`
against a CSR whose single Common Name is `web2.example.com`. -/
theorem C4_invalid_csr_aborts_witness :
    (main { w0 with parse := fun _ => some ["web2.example.com"] } []
        "web1.example.com" "CSR" "/etc/tls").1 =
      .error (.SigningError "CSR missing or invalid, check fqdn.") ∧
    (main { w0 with parse := fun _ => some ["web2.example.com"] } []
        "web1.example.com" "CSR" "/etc/tls").2 = [] :=
  C4_invalid_csr_aborts { w0 with parse := fun _ => some ["web2.example.com"] } []
    "web1.example.com" "CSR" "/etc/tls" ["web2.example.com"] rfl rfl

end VaultPKI

namespace VaultPKI

/-- Claim C5 counterexample: when the backend rejects the signing call
with detail `403 permission denied`, the raised error is
`SigningError('Error signing from vault!')` — a fixed message that does
not contain the backend's error detail, refuting "the backend's error
detail is included in the surfaced error message". -/
theorem C5_counterexample :
    (main { w0 with post := fun _ _ => .vaultErr "403 permission denied" }
        [("pki_path", "v1/pki/sign/web")] "web1.example.com" "CSR" "/etc/tls").1 =
      .error (.SigningError "Error signing from vault!") ∧
    containsSub "Error signing from vault!" "403 permission denied" = false :=
  ⟨rfl, by decide⟩

/-- Claim C5 (amended): a backend error (`VaultError`) raised by the
signing call is classified as `SigningError` with the fixed message
`Error signing from vault!`; the backend's error detail appears only in
an error-level log entry `Vault error: <detail>`, not in the raised
message, and no delivery is attempted.  A malformed success response
(JSON without a `data` payload) is not classified at all: it escapes as
a `KeyError`. -/
theorem C5_signing_error (w : World) (config : Config) (host csr path p : String)
    (names : List String)
    (hparse : w.parse csr = some names) (hver : verify_names host names = true)
    (hauth : w.auth = .ok)
    (hpki : cfgGet config "pki_path" = some p) (hp : p ≠ "") :
    (∀ detail, w.post p (signing_params_of config host csr) = .vaultErr detail →
      (main w config host csr path).1 = .error (.SigningError "Error signing from vault!") ∧
      (Event.logError ("Vault error: " ++ detail)) ∈ (main w config host csr path).2 ∧
      (main w config host csr path).2.any Event.isExecutorCall = false) ∧
    (w.post p (signing_params_of config host csr) = .noData →
      (main w config host csr path).1 = .error (.KeyError "data")) := by
  constructor
  · intro detail hpost
    simp [main, verify_csr_ok, hparse, hver, get_vault_connection, hauth, hpki, pyTruthy, hp,
      hpost, Event.isExecutorCall]
  · intro hpost
    simp [main, verify_csr_ok, hparse, hver, get_vault_connection, hauth, hpki, pyTruthy, hp,
      hpost]

/-- Witness for C5 (amended) at a concrete input: backend detail
`403 permission denied`. -/
theorem C5_signing_error_witness :
    (main { w0 with post := fun _ _ => .vaultErr "403 permission denied" }
        [("pki_path", "v1/pki/sign/web")] "web1.example.com" "CSR" "/etc/tls").1 =
      .error (.SigningError "Error signing from vault!") ∧
    (Event.logError "Vault error: 403 permission denied") ∈
      (main { w0 with post := fun _ _ => .vaultErr "403 permission denied" }
        [("pki_path", "v1/pki/sign/web")] "web1.example.com" "CSR" "/etc/tls").2 ∧
    (main { w0 with post := fun _ _ => .vaultErr "403 permission denied" }
        [("pki_path", "v1/pki/sign/web")] "web1.example.com" "CSR" "/etc/tls").2.any
      Event.isExecutorCall = false :=
  (C5_signing_error { w0 with post := fun _ _ => .vaultErr "403 permission denied" }
      [("pki_path", "v1/pki/sign/web")] "web1.example.com" "CSR" "/etc/tls" "v1/pki/sign/web"
      ["web1.example.com"] rfl rfl rfl rfl (by decide)).1
    "403 permission denied" rfl

/-- Claim C6: the delivery step treats every executor return as success
(`_write_certs_to_minion` returns `True` for all inputs — first
conjunct, over arbitrary worlds, hence arbitrary executor results), so
once a bundle has been signed the workflow terminates normally
(`Delivered`) regardless of the executor's reported result (second
conjunct: the world's `cmd` oracle is unconstrained). -/
theorem C6_delivery_never_fatal (w : World) (config : Config) (host csr path p : String)
    (names : List String) (data : CertData)
    (hparse : w.parse csr = some names) (hver : verify_names host names = true)
    (hauth : w.auth = .ok)
    (hpki : cfgGet config "pki_path" = some p) (hp : p ≠ "")
    (hpost : w.post p (signing_params_of config host csr) = .ok data) :
    (∀ (w2 : World) (fqdn dest : String) (cd : CertData),
      (write_certs_to_minion w2 fqdn dest cd).1 = true) ∧
    (main w config host csr path).1 = .ok () := by
  constructor
  · intro w2 fqdn dest cd
    rfl
  · simp [main, verify_csr_ok, hparse, hver, get_vault_connection, hauth, hpki, pyTruthy, hp,
      hpost, write_certs_to_minion]

/-- Witness for C6 at a concrete input, with an executor that reports
failure for every write: the run still terminates normally. -/
theorem C6_delivery_never_fatal_witness :
    (∀ (w2 : World) (fqdn dest : String) (cd : CertData),
      (write_certs_to_minion w2 fqdn dest cd).1 = true) ∧
    (main { w0 with cmd := fun _ _ _ => false }
        [("pki_path", "v1/pki/sign/web")] "web1.example.com" "CSR" "/etc/tls").1 = .ok () :=
  C6_delivery_never_fatal { w0 with cmd := fun _ _ _ => false }
    [("pki_path", "v1/pki/sign/web")] "web1.example.com" "CSR" "/etc/tls" "v1/pki/sign/web"
    ["web1.example.com"] ⟨"LEAF", "CA"⟩ rfl rfl rfl rfl (by decide) rfl

end VaultPKI

namespace VaultPKI

/-- Claim C7: the full chain derived from a bundle is the leaf
certificate, a single newline, and the issuing-CA certificate (first
conjunct; being an equation between pure functions of the bundle, the
derivation is deterministic and recomputing it yields identical bytes);
and delivery dispatches exactly two executor writes: the leaf
certificate to `dest/cert.pem` and the full chain to
`dest/fullchain.pem` (second conjunct, for a destination path that is
nonempty and has no trailing separator, so that path joining is plain
concatenation). -/
theorem C7_fullchain_and_delivery (w : World) (fqdn dest : String) (cd : CertData)
    (h1 : dest ≠ "") (h2 : str_endsWith dest "/" = false) :
    str_join "\n" [cd.certificate, cd.issuing_ca] =
      cd.certificate ++ "\n" ++ cd.issuing_ca ∧
    write_certs_to_minion w fqdn dest cd =
      (true,
        [.writeCall fqdn (dest ++ "/" ++ CERT_FILENAME) cd.certificate,
         .writeCall fqdn (dest ++ "/" ++ FULLCHAIN_FILENAME)
           (cd.certificate ++ "\n" ++ cd.issuing_ca)]) := by
  constructor
  · rfl
  · simp only [write_certs_to_minion]
    rw [os_path_join_simple dest CERT_FILENAME h1 h2 (by decide),
        os_path_join_simple dest FULLCHAIN_FILENAME h1 h2 (by decide)]
    rfl

/-- Witness for C7 at a concrete input: the scenario bundle
`certificate = "LEAF"`, `issuing_ca = "CA"` delivered to `/etc/tls`. -/
theorem C7_fullchain_and_delivery_witness :
    str_join "\n" ["LEAF", "CA"] = "LEAF" ++ "\n" ++ "CA" ∧
    write_certs_to_minion w0 "web1.example.com" "/etc/tls" ⟨"LEAF", "CA"⟩ =
      (true,
        [.writeCall "web1.example.com" ("/etc/tls" ++ "/" ++ CERT_FILENAME) "LEAF",
         .writeCall "web1.example.com" ("/etc/tls" ++ "/" ++ FULLCHAIN_FILENAME)
           ("LEAF" ++ "\n" ++ "CA")]) :=
  C7_fullchain_and_delivery w0 "web1.example.com" "/etc/tls" ⟨"LEAF", "CA"⟩
    (by decide) (by decide)

/-- Claim C8: when validation succeeds (and a session and the signing
endpoint path are available, so that the submission is reached), the
payload submitted to the signer is exactly the one built by `main`:
`common_name` and `alt_names` both the claimed identity, `format` equal
to `pem`, the original CSR bytes, and `ttl` the configured validity
duration, which defaults to `720h` when no override is configured. -/
theorem C8_signing_payload (w : World) (config : Config) (host csr path p : String)
    (names : List String)
    (hparse : w.parse csr = some names) (hver : verify_names host names = true)
    (hauth : w.auth = .ok)
    (hpki : cfgGet config "pki_path" = some p) (hp : p ≠ "") :
    Event.signCall p (signing_params_of config host csr) ∈ (main w config host csr path).2 ∧
    signing_params_of config host csr =
      { alt_names := host, csr := csr, common_name := host, format := "pem",
        ttl := cfgGetD config "validitiy_period" CERT_VALIDITY_PERIOD } ∧
    (cfgGet config "validitiy_period" = none →
      (signing_params_of config host csr).ttl = "720h") := by
  refine ⟨?_, rfl, ?_⟩
  · cases hpost : w.post p (signing_params_of config host csr) <;>
      simp [main, verify_csr_ok, hparse, hver, get_vault_connection, hauth, hpki, pyTruthy,
        hp, hpost, write_certs_to_minion]
  · intro hnone
    simp only [signing_params_of, cfgGetD, hnone, Option.getD_none]
    decide

/-- Witness for C8 at a concrete input: identity `web1.example.com`,
matching CSR, no configured override — the submitted payload carries
`ttl = "720h"`. -/
theorem C8_signing_payload_witness :
    Event.signCall "v1/pki/sign/web"
        (signing_params_of [("pki_path", "v1/pki/sign/web")] "web1.example.com" "CSR") ∈
      (main w0 [("pki_path", "v1/pki/sign/web")] "web1.example.com" "CSR" "/etc/tls").2 ∧
    signing_params_of [("pki_path", "v1/pki/sign/web")] "web1.example.com" "CSR" =
      { alt_names := "web1.example.com", csr := "CSR", common_name := "web1.example.com",
        format := "pem",
        ttl := cfgGetD [("pki_path", "v1/pki/sign/web")] "validitiy_period"
          CERT_VALIDITY_PERIOD } ∧
    (cfgGet [("pki_path", "v1/pki/sign/web")] "validitiy_period" = none →
      (signing_params_of [("pki_path", "v1/pki/sign/web")] "web1.example.com" "CSR").ttl =
        "720h") :=
  C8_signing_payload w0 [("pki_path", "v1/pki/sign/web")] "web1.example.com" "CSR"
    "/etc/tls" "v1/pki/sign/web" ["web1.example.com"] rfl rfl rfl rfl (by decide)

end VaultPKI

namespace VaultPKI

/-- Claim C9: the ttl placed in the submitted signing payload is read
from the configuration key spelled `validitiy_period` (misspelled in
the source) when present, and is `720h` otherwise; a key with the
correct spelling `validity_period` is ignored — prepending such a
binding to the configuration leaves the ttl unchanged, and when the
misspelled key is absent the default `720h` is used even though
`validity_period` is configured. -/
theorem C9_misspelled_validity_key (w : World) (config : Config) (host csr path p : String)
    (names : List String)
    (hparse : w.parse csr = some names) (hver : verify_names host names = true)
    (hauth : w.auth = .ok)
    (hpki : cfgGet config "pki_path" = some p) (hp : p ≠ "") :
    Event.signCall p (signing_params_of config host csr) ∈ (main w config host csr path).2 ∧
    (∀ v, cfgGet config "validitiy_period" = some v →
      (signing_params_of config host csr).ttl = v) ∧
    (cfgGet config "validitiy_period" = none →
      (signing_params_of config host csr).ttl = "720h") ∧
    (∀ v, (signing_params_of (("validity_period", v) :: config) host csr).ttl =
      (signing_params_of config host csr).ttl) := by
  refine ⟨?_, ?_, ?_, ?_⟩
  · cases hpost : w.post p (signing_params_of config host csr) <;>
      simp [main, verify_csr_ok, hparse, hver, get_vault_connection, hauth, hpki, pyTruthy,
        hp, hpost, write_certs_to_minion]
  · intro v hv
    simp [signing_params_of, cfgGetD, hv]
  · intro hnone
    simp only [signing_params_of, cfgGetD, hnone, Option.getD_none]
    decide
  · intro v
    simp [signing_params_of, cfgGetD, cfgGet]

/-- Witness for C9 at a concrete input: a config carrying the correctly
spelled `validity_period = 24h` but not the misspelled key — the
submitted ttl is nonetheless the default `720h`. -/
theorem C9_misspelled_validity_key_witness :
    Event.signCall "v1/pki/sign/web"
        (signing_params_of [("validity_period", "24h"), ("pki_path", "v1/pki/sign/web")]
          "web1.example.com" "CSR") ∈
      (main w0 [("validity_period", "24h"), ("pki_path", "v1/pki/sign/web")]
        "web1.example.com" "CSR" "/etc/tls").2 ∧
    (∀ v, cfgGet [("validity_period", "24h"), ("pki_path", "v1/pki/sign/web")]
        "validitiy_period" = some v →
      (signing_params_of [("validity_period", "24h"), ("pki_path", "v1/pki/sign/web")]
        "web1.example.com" "CSR").ttl = v) ∧
    (cfgGet [("validity_period", "24h"), ("pki_path", "v1/pki/sign/web")]
        "validitiy_period" = none →
      (signing_params_of [("validity_period", "24h"), ("pki_path", "v1/pki/sign/web")]
        "web1.example.com" "CSR").ttl = "720h") ∧
    (∀ v, (signing_params_of
        (("validity_period", v) ::
          [("validity_period", "24h"), ("pki_path", "v1/pki/sign/web")])
        "web1.example.com" "CSR").ttl =
      (signing_params_of [("validity_period", "24h"), ("pki_path", "v1/pki/sign/web")]
        "web1.example.com" "CSR").ttl) :=
  C9_misspelled_validity_key w0 [("validity_period", "24h"), ("pki_path", "v1/pki/sign/web")]
    "web1.example.com" "CSR" "/etc/tls" "v1/pki/sign/web" ["web1.example.com"]
    rfl rfl rfl rfl (by decide)

/-- Claim C10: when the credential file does not exist on the (expanded)
configured path, `get_user_id` returns `None` rather than raising, and
`_get_vault_connection` still issues the `auth_app_id` authentication
attempt with that `None` as the user secret — the trace of the
connection step contains the authentication call with a null user id,
whatever the authentication outcome. -/
theorem C10_missing_credential_file (w : World) (config : Config) (source : String)
    (hfile : w.files (w.expand source) = none)
    (hcfg : cfgGet config "vault_user_id_file" = some source) (hs : source ≠ "") :
    get_user_id w source = none ∧
    Event.authCall (cfgGet config "url") (cfgGet config "app_id") none ∈
      (get_vault_connection w config).2 := by
  have hgu : get_user_id w source = none := by simp [get_user_id, hfile]
  refine ⟨hgu, ?_⟩
  cases hauth : w.auth <;>
    simp [get_vault_connection, hcfg, pyTruthy, hs, hgu, hauth]

/-- Witness for C10 at a concrete input: an empty filesystem and a
configured credential path `/etc/vault-id`. -/
theorem C10_missing_credential_file_witness :
    get_user_id w0 "/etc/vault-id" = none ∧
    Event.authCall (cfgGet [("vault_user_id_file", "/etc/vault-id")] "url")
        (cfgGet [("vault_user_id_file", "/etc/vault-id")] "app_id") none ∈
      (get_vault_connection w0 [("vault_user_id_file", "/etc/vault-id")]).2 :=
  C10_missing_credential_file w0 [("vault_user_id_file", "/etc/vault-id")] "/etc/vault-id"
    rfl rfl (by decide)

end VaultPKI
